import Mathlib

/-!
Verification of the MIPS DAG-to-DAG instruction selector
(`lib/Target/Mips/MipsISelDAGToDAG.cpp`) against its design specification.

The development shallowly embeds the selector's data model (SelectionDAG
nodes and operands) and its three hand-written routines:

* `SelectAddr`   — the addressing-mode matcher (source lines 128-169);
* `Select`       — the node selector with the special mul/div/rem
                   lowerings (source lines 173-266);
* `InstructionSelectBasicBlock` — the per-block driver (source lines
                   101-124).

Stateful aspects that the claims mention — the order of
`AddToISelQueue` and `CurDAG->getTargetNode` calls, and the debug
indentation counter — are made explicit: `Select` returns, besides its
replacement node, the list of queue/build events it performed in order,
and the final value of the `Indent` counter.
-/

/-- Value types used by this selector: `MVT::i32` and the side-channel
type `MVT::Flag`. -/
inductive MVT where
  | i32 : MVT
  | Flag : MVT
deriving DecidableEq, Repr

/-- Extra data carried by leaf node classes: `ConstantSDNode` carries an
integer value, `FrameIndexSDNode` a frame index, the symbolic nodes a
symbol or global name. -/
inductive Payload where
  | none : Payload
  | constVal : Int → Payload
  | frameIdx : Int → Payload
  | extSym : String → Payload
  | globalAddr : String → Payload
deriving DecidableEq, Repr

mutual

/-- An `SDNode`: an opcode (an unsigned number in the C++ source), the
list of declared result value types, the ordered operand list (each
operand is a node together with a result number, i.e. an `SDOperand`),
and the payload of the node's class. -/
inductive SDNode where
  | mk : Nat → List MVT → SDOperandList → Payload → SDNode
deriving DecidableEq

/-- Operand lists, as a mutually-defined list type (each element is a
node plus a result number). -/
inductive SDOperandList where
  | nil : SDOperandList
  | cons : SDNode → Nat → SDOperandList → SDOperandList
deriving DecidableEq

end

/-- An `SDOperand` is a node (`Val` in the source) plus a result number
(`ResNo`). -/
abbrev SDOperand := SDNode × Nat

def SDOperandList.toList : SDOperandList → List SDOperand
  | .nil => []
  | .cons n r t => (n, r) :: t.toList

def SDOperandList.ofList : List SDOperand → SDOperandList
  | [] => .nil
  | (n, r) :: t => .cons n r (SDOperandList.ofList t)

/-- Convenience node builder taking a plain operand list. -/
def mkNode (op : Nat) (vts : List MVT) (ops : List SDOperand) (p : Payload) : SDNode :=
  SDNode.mk op vts (SDOperandList.ofList ops) p

def SDNode.getOpcode : SDNode → Nat
  | .mk op _ _ _ => op

def SDNode.valueTypes : SDNode → List MVT
  | .mk _ vts _ _ => vts

def SDNode.operands : SDNode → List SDOperand
  | .mk _ _ ops _ => ops.toList

def SDNode.payload : SDNode → Payload
  | .mk _ _ _ p => p

/-- Node::getOperand(i). Out-of-range access is undefined behaviour in
the C++; the embedding returns a junk leaf there (never exercised by the
theorems below, which supply well-formed nodes). -/
def SDNode.getOperand (n : SDNode) (i : Nat) : SDOperand :=
  n.operands.getD i (mkNode 0 [] [] Payload.none, 0)

/-- Opcode numbers. The generic `ISD` opcodes and the boundary constants
`ISD::BUILTIN_OP_END` / `MipsISD::FIRST_NUMBER` live in headers outside
the analysed file. Modelled from the spec: the three opcode classes
(generic, custom-target, machine) are disjoint ranges; generic opcodes
sit below `BUILTIN_OP_END`, the custom-target class is the interval
`[BUILTIN_OP_END, FIRST_NUMBER)`, machine opcodes sit above it. The
concrete numbers are representative; no theorem depends on their exact
values, only on this ordering. -/
def ISD.Constant : Nat := 1

def ISD.TargetConstant : Nat := 2

def ISD.FrameIndex : Nat := 3

def ISD.TargetFrameIndex : Nat := 4

def ISD.TargetGlobalAddress : Nat := 6

def ISD.TargetExternalSymbol : Nat := 8

def ISD.ADD : Nat := 10

def ISD.MULHS : Nat := 20

def ISD.MULHU : Nat := 21

def ISD.SDIV : Nat := 22

def ISD.UDIV : Nat := 23

def ISD.SREM : Nat := 24

def ISD.UREM : Nat := 25

def ISD.BUILTIN_OP_END : Nat := 100

def MipsISD.FIRST_NUMBER : Nat := 105

/-- Machine instruction opcodes from the generated `MipsGenInstrNames`
header (outside the analysed file). Modelled from the spec: distinct
tags in the machine range. -/
def Mips.MULT : Nat := 200

def Mips.MULTu : Nat := 201

def Mips.DIV : Nat := 202

def Mips.DIVu : Nat := 203

def Mips.MFHI : Nat := 204

def Mips.MFLO : Nat := 205

/-- dyn_cast to `FrameIndexSDNode` succeeds exactly on the
`ISD::FrameIndex` and `ISD::TargetFrameIndex` opcodes. -/
def isFrameIndexSDNode (n : SDNode) : Bool :=
  n.getOpcode == ISD.FrameIndex || n.getOpcode == ISD.TargetFrameIndex

/-- FrameIndexSDNode::getIndex(). Reading it on a non-frame-index node
is impossible in the C++ (dyn_cast guards every use); the junk default
is never reached by the guarded calls below. -/
def FrameIndexSDNode.getIndex (n : SDNode) : Int :=
  match n.payload with
  | .frameIdx k => k
  | _ => 0

/-- dyn_cast to `ConstantSDNode` succeeds exactly on the
`ISD::Constant` and `ISD::TargetConstant` opcodes. -/
def isConstantSDNode (n : SDNode) : Bool :=
  n.getOpcode == ISD.Constant || n.getOpcode == ISD.TargetConstant

/-- ConstantSDNode::getValue(); junk default guarded as for frame
indices. -/
def ConstantSDNode.getValue (n : SDNode) : Int :=
  match n.payload with
  | .constVal v => v
  | _ => 0

/-- CurDAG->getTargetConstant(v, MVT::i32). -/
def getTargetConstant (v : Int) : SDOperand :=
  (mkNode ISD.TargetConstant [MVT.i32] [] (Payload.constVal v), 0)

/-- CurDAG->getTargetFrameIndex(k, MVT::i32). -/
def getTargetFrameIndex (k : Int) : SDOperand :=
  (mkNode ISD.TargetFrameIndex [MVT.i32] [] (Payload.frameIdx k), 0)

/-- Predicate_immSExt16, from the generated pattern-table include
(outside the analysed file). Modelled from the spec: the constant fits
the target's signed 16-bit load/store offset-immediate range. -/
def Predicate_immSExt16 (v : Int) : Bool :=
  decide (-32768 ≤ v ∧ v ≤ 32767)

/-- Outputs of `SelectAddr`, listed in the positional order of the
function definition's two reference parameters (source line 129): the
third parameter, which the definition names `Offset`, then the fourth,
which it names `Base`. The in-class declaration (source lines 83-84)
names the same two positions `Base` then `Offset`, i.e. swapped
relative to the definition; the field names here follow the definition,
whose body is what assigns them. -/
structure AddrMatch where
  Offset : SDOperand
  Base : SDOperand
deriving DecidableEq

/-- MipsDAGToDAGISel::SelectAddr (source lines 128-169). Returns `none`
for the C++ `return false` (no match) and `some` outputs for
`return true`. The unused first parameter `Op` of the C++ function is
dropped. -/
def SelectAddr (Addr : SDOperand) : Option AddrMatch :=
  -- if Address is FI, get the TargetFrameIndex.
  if isFrameIndexSDNode Addr.1 then
    some { Base := getTargetFrameIndex (FrameIndexSDNode.getIndex Addr.1),
           Offset := getTargetConstant 0 }
  -- TargetExternalSymbol and TargetGlobalAddress are lowered elsewhere.
  else if Addr.1.getOpcode == ISD.TargetExternalSymbol
       || Addr.1.getOpcode == ISD.TargetGlobalAddress then
    none
  -- Operand is a result from an ADD.
  else if Addr.1.getOpcode == ISD.ADD
       && isConstantSDNode (Addr.1.getOperand 1).1
       && Predicate_immSExt16 (ConstantSDNode.getValue (Addr.1.getOperand 1).1) then
    some { Base :=
             if isFrameIndexSDNode (Addr.1.getOperand 0).1 then
               getTargetFrameIndex (FrameIndexSDNode.getIndex (Addr.1.getOperand 0).1)
             else
               Addr.1.getOperand 0,
           Offset := getTargetConstant (ConstantSDNode.getValue (Addr.1.getOperand 1).1) }
  else
    -- Default: the whole node becomes the base.
    some { Base := Addr, Offset := getTargetConstant 0 }

/-- Sample frame-index node, for concrete evaluations. -/
def frameIndexSD (k : Int) : SDNode :=
  mkNode ISD.FrameIndex [MVT.i32] [] (Payload.frameIdx k)

/-- Sample (non-target) constant node. -/
def constSD (v : Int) : SDNode :=
  mkNode ISD.Constant [MVT.i32] [] (Payload.constVal v)

example :
    SelectAddr (frameIndexSD 2, 0)
      = some { Offset := getTargetConstant 0, Base := getTargetFrameIndex 2 } := by
  decide

example :
    SelectAddr (mkNode ISD.ADD [MVT.i32] [(frameIndexSD 2, 0), (constSD 100, 0)]
        Payload.none, 0)
      = some { Offset := getTargetConstant 100, Base := getTargetFrameIndex 2 } := by
  decide

example :
    SelectAddr (mkNode ISD.TargetExternalSymbol [MVT.i32] [] (Payload.extSym "f"), 0)
      = none := by
  decide

/-- Events performed by `Select`, in program order: a call to
`AddToISelQueue` on an operand, or a call to `CurDAG->getTargetNode`
building a machine node. -/
inductive Event where
  | queued : SDOperand → Event
  | builtNode : SDNode → Event
deriving DecidableEq

/-- CurDAG->getTargetNode(opc, vt, a, b): a machine node with one result
value type and two operands. -/
def getTargetNode2 (opc : Nat) (vt : MVT) (a b : SDOperand) : SDNode :=
  mkNode opc [vt] [a, b] Payload.none

/-- CurDAG->getTargetNode(opc, vt, a): a machine node with one result
value type and one operand. -/
def getTargetNode1 (opc : Nat) (vt : MVT) (a : SDOperand) : SDNode :=
  mkNode opc [vt] [a] Payload.none

/-- Result of one call to `Select`: the replacement (`none` models the
C++ `return NULL`, i.e. reuse the node unchanged), the ordered list of
queue/build events the call performed, and the value of the debug
`Indent` counter when the call returns. -/
structure SelectResult where
  result : Option SDNode
  trace : List Event
  indentOut : Nat
deriving DecidableEq

/-- MipsDAGToDAGISel::Select (source lines 173-266). `selectCode`
abstracts the generated pattern-table entry point `SelectCode` (a
separate, generated artifact; modelled from the spec as a black-box
function from the node to an optional replacement). `indentIn` is the
value of the debug `Indent` member on entry. -/
def Select (selectCode : SDOperand → Option SDNode) (indentIn : Nat)
    (N : SDOperand) : SelectResult :=
  let node := N.1
  let opcode := node.getOpcode
  -- #ifndef NDEBUG ... Indent += 2
  let indent := indentIn + 2
  -- If we have a custom node, we already have selected!
  if ISD.BUILTIN_OP_END ≤ opcode ∧ opcode < MipsISD.FIRST_NUMBER then
    { result := none, trace := [], indentOut := indent - 2 }
  -- Special Mul operations
  else if opcode == ISD.MULHS || opcode == ISD.MULHU then
    let mulOp1 := node.getOperand 0
    let mulOp2 := node.getOperand 1
    let mulOp := if opcode == ISD.MULHU then Mips.MULTu else Mips.MULT
    let mulNode := getTargetNode2 mulOp MVT.Flag mulOp1 mulOp2
    let mfInFlag : SDOperand := (mulNode, 0)
    let res := getTargetNode1 Mips.MFHI MVT.i32 mfInFlag
    { result := some res,
      trace := [.queued mulOp1, .queued mulOp2, .builtNode mulNode, .builtNode res],
      indentOut := indent }
  -- Div operations
  else if opcode == ISD.SDIV || opcode == ISD.UDIV then
    let divOp1 := node.getOperand 0
    let divOp2 := node.getOperand 1
    let divOp := if opcode == ISD.SDIV then Mips.DIV else Mips.DIVu
    let divNode := getTargetNode2 divOp MVT.Flag divOp1 divOp2
    let mfInFlag : SDOperand := (divNode, 0)
    let res := getTargetNode1 Mips.MFLO MVT.i32 mfInFlag
    { result := some res,
      trace := [.queued divOp1, .queued divOp2, .builtNode divNode, .builtNode res],
      indentOut := indent }
  -- Rem operations
  else if opcode == ISD.SREM || opcode == ISD.UREM then
    let remOp1 := node.getOperand 0
    let remOp2 := node.getOperand 1
    let remOp := if opcode == ISD.SREM then Mips.DIV else Mips.DIVu
    let remNode := getTargetNode2 remOp MVT.Flag remOp1 remOp2
    let mfInFlag : SDOperand := (remNode, 0)
    let res := getTargetNode1 Mips.MFHI MVT.i32 mfInFlag
    { result := some res,
      trace := [.queued remOp1, .queued remOp2, .builtNode remNode, .builtNode res],
      indentOut := indent }
  else
    -- Select the default instruction (generated pattern table).
    { result := selectCode N, trace := [], indentOut := indent - 2 }

/-- Tests whether an opcode is one of the six hand-lowered special
operations. -/
def isSpecialOp (opcode : Nat) : Bool :=
  opcode == ISD.MULHS || opcode == ISD.MULHU || opcode == ISD.SDIV
    || opcode == ISD.UDIV || opcode == ISD.SREM || opcode == ISD.UREM

/-- Steps taken by the per-block driver, in order. -/
inductive DriverStep where
  | debugTrace : DriverStep
  | selectRootStep : DriverStep
  | removeDeadNodesStep : DriverStep
  | scheduleAndEmitStep : DriverStep
deriving DecidableEq

/-- The per-block SelectionDAG as the driver sees it: a distinguished
root plus the set (list) of all nodes. -/
structure SelectionDAG where
  root : SDOperand
  allnodes : List SDNode
deriving DecidableEq

/-- MipsDAGToDAGISel::InstructionSelectBasicBlock (source lines
101-124). `SelectRoot`, `RemoveDeadNodes` and `ScheduleAndEmitDAG` are
external collaborators (base-class and SelectionDAG methods outside the
analysed file); modelled from the spec as black-box parameters: root
selection yields the new root, dead-node removal transforms the graph,
scheduling/emission consumes it. `debug` reflects the NDEBUG-guarded
diagnostics; the returned step list records what ran, in order. -/
def InstructionSelectBasicBlock {E : Type}
    (SelectRoot : SDOperand → SDOperand)
    (RemoveDeadNodes : SelectionDAG → SelectionDAG)
    (ScheduleAndEmitDAG : SelectionDAG → E)
    (debug : Bool) (SD : SelectionDAG) : E × List DriverStep :=
  -- DEBUG(BB->dump()) and the banner prints: diagnostic only.
  let pre : List DriverStep := if debug then [DriverStep.debugTrace] else []
  -- SD.setRoot(SelectRoot(SD.getRoot()))
  let SD1 : SelectionDAG := { SD with root := SelectRoot SD.root }
  -- SD.RemoveDeadNodes()
  let SD2 := RemoveDeadNodes SD1
  -- ScheduleAndEmitDAG(SD)
  (ScheduleAndEmitDAG SD2,
    pre ++ [DriverStep.selectRootStep, DriverStep.removeDeadNodesStep,
            DriverStep.scheduleAndEmitStep])

/-- Claim C1: for every node whose opcode is one of the six special
operations with operands (A, B), `Select` builds exactly the
two-instruction chain of the spec's table: MULHS gives MULT then MFHI,
MULHU gives MULTu then MFHI, SDIV gives DIV then MFLO, UDIV gives DIVu
then MFLO, SREM gives DIV then MFHI, UREM gives DIVu then MFHI; in every
case the producer takes A and B as inputs and the consumer reading the
producer's value is what `Select` returns. -/
theorem C1_special_op_chains (A B : SDOperand) (vts : List MVT) (pl : Payload)
    (rn : Nat) (sc : SDOperand → Option SDNode) (i : Nat) :
    (Select sc i (mkNode ISD.MULHS vts [A, B] pl, rn)).result
      = some (getTargetNode1 Mips.MFHI MVT.i32 (getTargetNode2 Mips.MULT MVT.Flag A B, 0))
    ∧ (Select sc i (mkNode ISD.MULHU vts [A, B] pl, rn)).result
      = some (getTargetNode1 Mips.MFHI MVT.i32 (getTargetNode2 Mips.MULTu MVT.Flag A B, 0))
    ∧ (Select sc i (mkNode ISD.SDIV vts [A, B] pl, rn)).result
      = some (getTargetNode1 Mips.MFLO MVT.i32 (getTargetNode2 Mips.DIV MVT.Flag A B, 0))
    ∧ (Select sc i (mkNode ISD.UDIV vts [A, B] pl, rn)).result
      = some (getTargetNode1 Mips.MFLO MVT.i32 (getTargetNode2 Mips.DIVu MVT.Flag A B, 0))
    ∧ (Select sc i (mkNode ISD.SREM vts [A, B] pl, rn)).result
      = some (getTargetNode1 Mips.MFHI MVT.i32 (getTargetNode2 Mips.DIV MVT.Flag A B, 0))
    ∧ (Select sc i (mkNode ISD.UREM vts [A, B] pl, rn)).result
      = some (getTargetNode1 Mips.MFHI MVT.i32 (getTargetNode2 Mips.DIVu MVT.Flag A B, 0)) :=
  ⟨rfl, rfl, rfl, rfl, rfl, rfl⟩

/-- Claim C6: in every special-op lowering branch, both operands of the
node are registered with the external legalization queue
(`AddToISelQueue`) before the producer instruction node is constructed;
the exact event sequence of each branch is: queue first operand, queue
second operand, build producer, build consumer. -/
theorem C6_queue_before_build (A B : SDOperand) (vts : List MVT) (pl : Payload)
    (rn : Nat) (sc : SDOperand → Option SDNode) (i : Nat) :
    (Select sc i (mkNode ISD.MULHS vts [A, B] pl, rn)).trace
      = [Event.queued A, Event.queued B,
         Event.builtNode (getTargetNode2 Mips.MULT MVT.Flag A B),
         Event.builtNode (getTargetNode1 Mips.MFHI MVT.i32
           (getTargetNode2 Mips.MULT MVT.Flag A B, 0))]
    ∧ (Select sc i (mkNode ISD.MULHU vts [A, B] pl, rn)).trace
      = [Event.queued A, Event.queued B,
         Event.builtNode (getTargetNode2 Mips.MULTu MVT.Flag A B),
         Event.builtNode (getTargetNode1 Mips.MFHI MVT.i32
           (getTargetNode2 Mips.MULTu MVT.Flag A B, 0))]
    ∧ (Select sc i (mkNode ISD.SDIV vts [A, B] pl, rn)).trace
      = [Event.queued A, Event.queued B,
         Event.builtNode (getTargetNode2 Mips.DIV MVT.Flag A B),
         Event.builtNode (getTargetNode1 Mips.MFLO MVT.i32
           (getTargetNode2 Mips.DIV MVT.Flag A B, 0))]
    ∧ (Select sc i (mkNode ISD.UDIV vts [A, B] pl, rn)).trace
      = [Event.queued A, Event.queued B,
         Event.builtNode (getTargetNode2 Mips.DIVu MVT.Flag A B),
         Event.builtNode (getTargetNode1 Mips.MFLO MVT.i32
           (getTargetNode2 Mips.DIVu MVT.Flag A B, 0))]
    ∧ (Select sc i (mkNode ISD.SREM vts [A, B] pl, rn)).trace
      = [Event.queued A, Event.queued B,
         Event.builtNode (getTargetNode2 Mips.DIV MVT.Flag A B),
         Event.builtNode (getTargetNode1 Mips.MFHI MVT.i32
           (getTargetNode2 Mips.DIV MVT.Flag A B, 0))]
    ∧ (Select sc i (mkNode ISD.UREM vts [A, B] pl, rn)).trace
      = [Event.queued A, Event.queued B,
         Event.builtNode (getTargetNode2 Mips.DIVu MVT.Flag A B),
         Event.builtNode (getTargetNode1 Mips.MFHI MVT.i32
           (getTargetNode2 Mips.DIVu MVT.Flag A B, 0))] :=
  ⟨rfl, rfl, rfl, rfl, rfl, rfl⟩

/-- A replacement `r` is a side-channel chain over inputs A and B when it
is a consumer node yielding the single i32 register result whose sole
operand is result 0 of a producer node, the producer in turn having the
side-channel `Flag` type as its only result and A, B as its operands. -/
def isSideChannelChain (A B : SDOperand) (r : Option SDNode) : Prop :=
  ∃ c p, r = some c ∧ c.valueTypes = [MVT.i32] ∧ c.operands = [(p, 0)]
    ∧ p.valueTypes = [MVT.Flag] ∧ p.operands = [A, B]

/-- Claim C7: for every special-op lowering, the producer node is built
with exactly one result value of the side-channel (Flag) type and no
ordinary register result, and the consumer node returned by `Select`
takes result 0 of the producer as its sole operand while yielding the
i32 register result. -/
theorem C7_side_channel_chain (A B : SDOperand) (vts : List MVT) (pl : Payload)
    (rn : Nat) (sc : SDOperand → Option SDNode) (i : Nat) :
    isSideChannelChain A B (Select sc i (mkNode ISD.MULHS vts [A, B] pl, rn)).result
    ∧ isSideChannelChain A B (Select sc i (mkNode ISD.MULHU vts [A, B] pl, rn)).result
    ∧ isSideChannelChain A B (Select sc i (mkNode ISD.SDIV vts [A, B] pl, rn)).result
    ∧ isSideChannelChain A B (Select sc i (mkNode ISD.UDIV vts [A, B] pl, rn)).result
    ∧ isSideChannelChain A B (Select sc i (mkNode ISD.SREM vts [A, B] pl, rn)).result
    ∧ isSideChannelChain A B (Select sc i (mkNode ISD.UREM vts [A, B] pl, rn)).result :=
  ⟨⟨_, _, rfl, rfl, rfl, rfl, rfl⟩, ⟨_, _, rfl, rfl, rfl, rfl, rfl⟩,
   ⟨_, _, rfl, rfl, rfl, rfl, rfl⟩, ⟨_, _, rfl, rfl, rfl, rfl, rfl⟩,
   ⟨_, _, rfl, rfl, rfl, rfl, rfl⟩, ⟨_, _, rfl, rfl, rfl, rfl, rfl⟩⟩

/-- Claim C2, counterexample: the claim asserts that in the declared
(Base, Offset) output-parameter order of the in-class declaration
(source lines 83-84) the first of the two outputs is the target
frame-index and the second the constant 0. The definition (source line
129) binds those same positions as (Offset, Base) and assigns the
constant 0 to the third parameter and the frame-index to the fourth, so
at frame index 0 the claimed positional outputs are wrong. `AddrMatch`
lists the fields in the positional order of the parameters, so the
claimed output would be `{ Offset := getTargetFrameIndex 0,
Base := getTargetConstant 0 }`. -/
theorem C2_declared_order_counterexample :
    ¬ SelectAddr (frameIndexSD 0, 0)
        = some { Offset := getTargetFrameIndex 0, Base := getTargetConstant 0 } := by
  decide

/-- Claim C2, amended: for every address node that is a frame-slot
(frame-index) reference with index k, `SelectAddr` succeeds and
produces base = the target-concrete frame-index reference for k and
offset = the i32 constant 0, where base and offset are the parameters
so named in the function definition: positionally, the third output
parameter (named Base in the in-class declaration but Offset in the
definition) receives the constant 0 and the fourth (named Offset in the
declaration, Base in the definition) receives the frame-index
reference. -/
theorem C2_frame_index_amended (k : Int) (vts : List MVT) (rn : Nat) :
    SelectAddr (mkNode ISD.FrameIndex vts [] (Payload.frameIdx k), rn)
      = some { Offset := getTargetConstant 0, Base := getTargetFrameIndex k } :=
  rfl

/-- Claim C3: `SelectAddr` returns no match if and only if the address
node is a target-concrete symbolic reference (a target external symbol
or a target global address); for every other address node it
succeeds. -/
theorem C3_symbolic_only_failure (Addr : SDOperand) :
    SelectAddr Addr = none
      ↔ (Addr.1.getOpcode = ISD.TargetExternalSymbol
         ∨ Addr.1.getOpcode = ISD.TargetGlobalAddress) := by
  unfold SelectAddr
  split_ifs with h1 h2 h3
  all_goals
    simp_all [isFrameIndexSDNode, ISD.FrameIndex, ISD.TargetFrameIndex,
      ISD.TargetExternalSymbol, ISD.TargetGlobalAddress]
  all_goals omega

/-- Claim C4: for every address node that is an addition whose second
operand is a constant, `SelectAddr` succeeds; when the constant fits the
signed 16-bit immediate range the offset is that constant and the base
is the target-concrete frame-index form if the addition's first operand
is a frame-slot reference and the first operand verbatim otherwise
(in particular, when the first operand is itself an addition it is kept
verbatim: the decomposition never recurses through chained additions);
when the constant does not fit, `SelectAddr` falls through to the
default rule, with the whole addition node as base and offset 0. -/
theorem C4_add_const_folding (x c : SDOperand) (hc : isConstantSDNode c.1 = true)
    (vts : List MVT) (pl : Payload) (rn : Nat) :
    SelectAddr (mkNode ISD.ADD vts [x, c] pl, rn)
      = some (if Predicate_immSExt16 (ConstantSDNode.getValue c.1) then
                { Offset := getTargetConstant (ConstantSDNode.getValue c.1),
                  Base := if isFrameIndexSDNode x.1 then
                            getTargetFrameIndex (FrameIndexSDNode.getIndex x.1)
                          else x }
              else
                { Offset := getTargetConstant 0,
                  Base := (mkNode ISD.ADD vts [x, c] pl, rn) }) := by
  have hop1 : (mkNode ISD.ADD vts [x, c] pl).getOperand 1 = c := rfl
  have hop0 : (mkNode ISD.ADD vts [x, c] pl).getOperand 0 = x := rfl
  have hfi : isFrameIndexSDNode (mkNode ISD.ADD vts [x, c] pl) = false := rfl
  have hsym : ((mkNode ISD.ADD vts [x, c] pl).getOpcode == ISD.TargetExternalSymbol
      || (mkNode ISD.ADD vts [x, c] pl).getOpcode == ISD.TargetGlobalAddress) = false := rfl
  have hadd : ((mkNode ISD.ADD vts [x, c] pl).getOpcode == ISD.ADD) = true := rfl
  by_cases hp : Predicate_immSExt16 (ConstantSDNode.getValue c.1) = true
  · simp [SelectAddr, hop0, hop1, hfi, hsym, hadd, hc, hp]
  · simp [SelectAddr, hop0, hop1, hfi, hsym, hadd, hc, hp]

/-- Witness for C4 at concrete inputs: first operand the frame-slot
reference with index 2, second operand the constant 100 (inside the
signed 16-bit range). -/
theorem C4_add_const_folding_witness :
    isConstantSDNode (constSD 100, 0).1 = true
    ∧ SelectAddr (mkNode ISD.ADD [MVT.i32] [(frameIndexSD 2, 0), (constSD 100, 0)]
          Payload.none, 0)
        = some (if Predicate_immSExt16 (ConstantSDNode.getValue (constSD 100, 0).1) then
                  { Offset := getTargetConstant (ConstantSDNode.getValue (constSD 100, 0).1),
                    Base := if isFrameIndexSDNode (frameIndexSD 2, 0).1 then
                              getTargetFrameIndex (FrameIndexSDNode.getIndex (frameIndexSD 2, 0).1)
                            else (frameIndexSD 2, 0) }
                else
                  { Offset := getTargetConstant 0,
                    Base := (mkNode ISD.ADD [MVT.i32] [(frameIndexSD 2, 0), (constSD 100, 0)]
                        Payload.none, 0) }) :=
  ⟨by decide, C4_add_const_folding (frameIndexSD 2, 0) (constSD 100, 0) (by decide)
      [MVT.i32] Payload.none 0⟩

/-- Claim C9: for every address node that is an addition whose first
operand is a constant (even one inside the signed 16-bit range) and
whose second operand is not a constant, `SelectAddr` does not fold the
constant: only the second operand is tested, so the node is handled by
the default rule, with the whole addition as base and offset 0. -/
theorem C9_no_left_const_fold (v : Int) (_hv : Predicate_immSExt16 v = true)
    (x : SDOperand) (hx : isConstantSDNode x.1 = false)
    (vts : List MVT) (pl : Payload) (rn : Nat) :
    SelectAddr (mkNode ISD.ADD vts [(constSD v, 0), x] pl, rn)
      = some { Offset := getTargetConstant 0,
               Base := (mkNode ISD.ADD vts [(constSD v, 0), x] pl, rn) } := by
  have hop1 : (mkNode ISD.ADD vts [(constSD v, 0), x] pl).getOperand 1 = x := rfl
  have hfi : isFrameIndexSDNode (mkNode ISD.ADD vts [(constSD v, 0), x] pl) = false := rfl
  have hsym : ((mkNode ISD.ADD vts [(constSD v, 0), x] pl).getOpcode == ISD.TargetExternalSymbol
      || (mkNode ISD.ADD vts [(constSD v, 0), x] pl).getOpcode == ISD.TargetGlobalAddress)
        = false := rfl
  simp [SelectAddr, hop1, hfi, hsym, hx]

/-- Witness for C9 at concrete inputs: add(constant 100, R) where R is a
non-constant register-like leaf; the constant 100 fits the signed
range, yet the whole addition becomes the base. -/
theorem C9_no_left_const_fold_witness :
    Predicate_immSExt16 100 = true
    ∧ isConstantSDNode (mkNode 50 [MVT.i32] [] Payload.none, 0).1 = false
    ∧ SelectAddr (mkNode ISD.ADD [MVT.i32]
          [(constSD 100, 0), (mkNode 50 [MVT.i32] [] Payload.none, 0)] Payload.none, 0)
        = some { Offset := getTargetConstant 0,
                 Base := (mkNode ISD.ADD [MVT.i32]
                   [(constSD 100, 0), (mkNode 50 [MVT.i32] [] Payload.none, 0)]
                   Payload.none, 0) } :=
  ⟨by decide, by decide,
   C9_no_left_const_fold 100 (by decide) (mkNode 50 [MVT.i32] [] Payload.none, 0)
     (by decide) [MVT.i32] Payload.none 0⟩

/-- Claim C5: for every node whose opcode lies in the custom-target
range (at or above `ISD::BUILTIN_OP_END` and below
`MipsISD::FIRST_NUMBER`), `Select` returns NULL (reuse the node
unchanged) without queueing any operand or building any node, whatever
the pattern table would say — the custom check precedes both the
special-op dispatch and the pattern-table fallback, so no custom-target
node is ever rewritten. -/
theorem C5_custom_unchanged (sc : SDOperand → Option SDNode) (i : Nat)
    (N : SDOperand)
    (h : ISD.BUILTIN_OP_END ≤ N.1.getOpcode
         ∧ N.1.getOpcode < MipsISD.FIRST_NUMBER) :
    Select sc i N = { result := none, trace := [], indentOut := i } := by
  simp [Select, h]

/-- Witness for C5 at a concrete input: a node with opcode
`ISD.BUILTIN_OP_END` (the first custom-target opcode). -/
theorem C5_custom_unchanged_witness :
    (ISD.BUILTIN_OP_END ≤ (mkNode ISD.BUILTIN_OP_END [MVT.i32] [] Payload.none, 0).1.getOpcode
     ∧ (mkNode ISD.BUILTIN_OP_END [MVT.i32] [] Payload.none, 0).1.getOpcode
         < MipsISD.FIRST_NUMBER)
    ∧ Select (fun z => some z.1) 7 (mkNode ISD.BUILTIN_OP_END [MVT.i32] [] Payload.none, 0)
        = { result := none, trace := [], indentOut := 7 } :=
  ⟨by decide,
   C5_custom_unchanged (fun z => some z.1) 7
     (mkNode ISD.BUILTIN_OP_END [MVT.i32] [] Payload.none, 0) (by decide)⟩

/-- Claim C10: `Select` adds 2 to the debug indentation counter on
entry and subtracts 2 on the custom-target and fallback return paths,
but each of the three special-op branches returns without the
decrement: after `Select` returns for a special-op node the counter is
exactly 2 greater than on entry, and for every other node it is
restored to its entry value. -/
theorem C10_indent_effect (sc : SDOperand → Option SDNode) (i : Nat)
    (N : SDOperand) :
    (Select sc i N).indentOut
      = if isSpecialOp N.1.getOpcode then i + 2 else i := by
  rcases N with ⟨⟨op, nvts, nops, npl⟩, rn⟩
  simp only [Select, SDNode.getOpcode]
  split_ifs with h1 h2 h3 h4
  all_goals
    simp_all [isSpecialOp, ISD.MULHS, ISD.MULHU, ISD.SDIV, ISD.UDIV,
      ISD.SREM, ISD.UREM, ISD.BUILTIN_OP_END, MipsISD.FIRST_NUMBER]
  all_goals omega

/-- Claim C8: the Selection Driver performs its steps in the spec's
order — select the root and install the new root, then discard dead
nodes, then hand the graph to the external scheduler/emitter — and its
tracing is diagnostic-only: the emitted result is the composition of the
external collaborators applied in that order and is unaffected by the
debug flag. -/
theorem C8_driver_order {E : Type} (SelectRoot : SDOperand → SDOperand)
    (RemoveDeadNodes : SelectionDAG → SelectionDAG)
    (ScheduleAndEmitDAG : SelectionDAG → E)
    (dbg : Bool) (SD : SelectionDAG) :
    (InstructionSelectBasicBlock SelectRoot RemoveDeadNodes ScheduleAndEmitDAG dbg SD).1
      = ScheduleAndEmitDAG (RemoveDeadNodes { SD with root := SelectRoot SD.root })
    ∧ (InstructionSelectBasicBlock SelectRoot RemoveDeadNodes ScheduleAndEmitDAG dbg SD).2.filter
        (fun s => !(s == DriverStep.debugTrace))
      = [DriverStep.selectRootStep, DriverStep.removeDeadNodesStep,
         DriverStep.scheduleAndEmitStep]
    ∧ (InstructionSelectBasicBlock SelectRoot RemoveDeadNodes ScheduleAndEmitDAG true SD).1
      = (InstructionSelectBasicBlock SelectRoot RemoveDeadNodes ScheduleAndEmitDAG false SD).1 := by
  cases dbg
  all_goals exact ⟨rfl, rfl, rfl⟩
